import Mathlib

/-!
Shallow embedding of `src/main.py` (class `QQAvatar`) and verification of the
specification's claims about it.

The Python module offers four operations:
* `get_avatar_url(qq, hd, size)` — a pure URL builder (spec name `buildUrl`);
* `download_avatar(qq, save_path, hd, size)` — GET the URL and write the body
  to a file, returning a `bool` (spec name `fetch`);
* `check_avatar_exists(qq, hd)` — HEAD probe returning a `bool` (spec name
  `checkExists`);
* `batch_download(qq_list, output_dir, hd, size)` — sequential loop over
  `download_avatar` (spec name `batchFetch`).

The effectful operations are embedded as functions of an explicit environment
`Env` (the HTTP and filesystem oracle) that return the Python result — an
`Except PyError α` value, where `.error` models an uncaught Python
exception — paired with the trace of attempted side effects.
-/

namespace QIMG

/-- Python `Union[str, int]`: the `qq` argument may be a string or an int. -/
inductive PyVal where
  | str (s : String)
  | int (n : Int)
deriving Repr, DecidableEq

/-- Python `str(qq)` (`qq_str = str(qq)` in `get_avatar_url`, and the f-string
interpolation of `qq`). Lean's `toString` on `Int` prints the same decimal
form, with a leading `-` for negatives, that Python `str` prints. -/
def pyStr : PyVal → String
  | .str s => s
  | .int n => toString n

/-- ASCII decimal digit test, used to model Python `int(str)`. -/
def isAsciiDigit (c : Char) : Bool :=
  decide (48 ≤ c.toNat ∧ c.toNat ≤ 57)

/-- Characters stripped by Python `int()` before parsing (ASCII whitespace;
the unicode whitespace Python also strips is outside this ASCII model). -/
def isPySpace (c : Char) : Bool :=
  c == ' ' || c == '\t' || c == '\n' || c == '\x0d' || c == '\x0b' || c == '\x0c'

/-- Strip leading and trailing whitespace from a character list. -/
def stripChars (cs : List Char) : List Char :=
  ((cs.dropWhile isPySpace).reverse.dropWhile isPySpace).reverse

/-- Accumulate the value of a decimal digit string. -/
def digitsValAux : Nat → List Char → Nat
  | acc, [] => acc
  | acc, c :: cs => digitsValAux (acc * 10 + (c.toNat - 48)) cs

/-- Validity of the digit group accepted by Python `int()` after the optional
sign: every character is a digit or an underscore, the group starts and ends
with a digit, and every underscore sits between two digits. The head is
checked by the caller; this checks the rest of the shape. -/
def coreOk : List Char → Bool
  | [] => false
  | [c] => isAsciiDigit c
  | c :: c2 :: cs =>
    if isAsciiDigit c then coreOk (c2 :: cs)
    else if c == '_' then isAsciiDigit c2 && coreOk (c2 :: cs)
    else false

/-- Model of Python `int(s)` on ASCII strings: strip whitespace, accept an
optional `+`/`-` sign followed by a nonempty digit group with optional single
underscores between digits; `none` models the `ValueError` raise. -/
def pyIntParse (s : String) : Option Int :=
  let cs := stripChars s.toList
  let sd : Int × List Char :=
    match cs with
    | '+' :: rest => (1, rest)
    | '-' :: rest => (-1, rest)
    | _ => (1, cs)
  match sd.2, sd.1 with
  | [], _ => none
  | c :: rest, sign =>
    if isAsciiDigit c && coreOk (c :: rest) then
      some (sign * Int.ofNat (digitsValAux 0 ((c :: rest).filter (fun x => x != '_'))))
    else none

/-- Uncaught Python exceptions that the embedded operations can raise. -/
inductive PyError where
  /-- `ValueError` from `int()` on a non-numeric string. -/
  | valueError
  /-- `OSError` from the unguarded `os.makedirs` in `batch_download`. -/
  | osError
deriving Repr, DecidableEq

/-- `self.normal_url_template = "http://q{server}.qlogo.cn/g?b=qq&nk={qq}&s={size}"`,
with `.format` applied. -/
def normal_url_template (server qq : String) (size : Int) : String :=
  "http://q" ++ server ++ ".qlogo.cn/g?b=qq&nk=" ++ qq ++ "&s=" ++ toString size

/-- `self.hd_url_template = "http://q.qlogo.cn/headimg_dl?dst_uin={qq}&spec={size}&img_type=jpg"`,
with `.format` applied. -/
def hd_url_template (qq : String) (size : Int) : String :=
  "http://q.qlogo.cn/headimg_dl?dst_uin=" ++ qq ++ "&spec=" ++ toString size ++ "&img_type=jpg"

/-- `QQAvatar.get_avatar_url` (src/main.py lines 14–39). Pure. The Standard
(`hd = false`) branch evaluates `int(qq_str)` for server selection and raises
`ValueError` when the identifier does not parse. Python `%` on negative ints
returns a nonnegative remainder for modulus 2, as does Lean's `Int.emod`, so
the parity test matches. -/
def get_avatar_url (qq : PyVal) (hd : Bool) (size : Int) : Except PyError String :=
  let qq_str := pyStr qq
  if hd then
    let size2 := if size > 640 then 640 else size
    .ok (hd_url_template qq_str size2)
  else
    let size2 := if size > 140 then 140 else size
    match pyIntParse qq_str with
    | none => .error .valueError
    | some n => .ok (normal_url_template (if n % 2 = 0 then "1" else "2") qq_str size2)

/-! ## Environment and effect traces for the I/O operations -/

/-- The body of a completed HTTP exchange: status code and raw content bytes. -/
structure HttpResponse where
  status : Nat
  content : List Nat
deriving Repr, DecidableEq

/-- Outcome of one `requests.get`/`requests.head` call: either a response, or
a raised `requests.exceptions.RequestException` (connection failure, DNS
failure, timeout). -/
inductive HttpResult where
  | response (r : HttpResponse)
  | netError
deriving Repr, DecidableEq

/-- The oracle for the outside world: what each HTTP request returns, whether
each filesystem call succeeds, and the current working directory (used by
`os.path.abspath`). -/
structure Env where
  get : String → HttpResult
  head : String → HttpResult
  makedirs : String → Bool
  fileWrite : String → List Nat → Bool
  pathExists : String → Bool
  cwd : String

/-- One attempted side effect, in the order the Python code attempts them.
Printed strings keep the f-string text of the source; the `repr` of a caught
exception object interpolated into a message is abstracted to a fixed
placeholder, since no claim concerns it. -/
inductive Effect where
  | get (url : String)
  | head (url : String)
  | makedirs (path : String)
  | fileWrite (path : String) (content : List Nat)
  | printed (s : String)
deriving Repr, DecidableEq

/-- Model of POSIX `os.path.abspath` restricted to what the claims need: an
absolute path is returned unchanged, a relative one is joined to the current
working directory (the path normalization `abspath` also performs is omitted;
no claim depends on it). -/
def abspath (cwd p : String) : String :=
  match p.toList with
  | '/' :: _ => p
  | _ => cwd ++ "/" ++ p

/-- Model of POSIX `os.path.dirname`: everything before the last `/`, with
`/` kept when it is the whole head; `""` when there is no `/`. -/
def dirname (p : String) : String :=
  match (p.toList.reverse.dropWhile (fun c => c != '/')) with
  | [] => ""
  | ['/'] => "/"
  | '/' :: tail => String.mk tail.reverse
  | _ :: _ => ""

/-- Model of POSIX `os.path.join` for two components. -/
def pyJoin (a b : String) : String :=
  match b.toList with
  | '/' :: _ => b
  | _ =>
    match a.toList.reverse with
    | [] => b
    | '/' :: _ => a ++ b
    | _ => a ++ "/" ++ b

/-- The filename suffix chosen from the quality flag, as in lines 59 and 124:
`"_hd.jpg" if hd else ".png"`. -/
def qualitySuffix (hd : Bool) : String :=
  if hd then "_hd.jpg" else ".png"

/-- Lines 58–60 of `download_avatar`: the caller-supplied save path, or the
default `f"qq_{qq}{suffix}"` when `save_path is None`. -/
def effectiveSavePath (qq : PyVal) (save_path : Option String) (hd : Bool) : String :=
  match save_path with
  | some p => p
  | none => "qq_" ++ pyStr qq ++ qualitySuffix hd

/-- `response.raise_for_status()` raises `requests.exceptions.HTTPError`
exactly for status codes 400–599 (client and server errors); informational,
redirect and other statuses pass through silently. -/
def raiseForStatusFails (status : Nat) : Bool :=
  decide (400 ≤ status) && decide (status < 600)

/-- `QQAvatar.download_avatar` (src/main.py lines 41–82). The URL is built on
line 55, before the `try` block, so a `ValueError` from `get_avatar_url`
propagates to the caller with no effect attempted. Inside the `try`:
a `RequestException` from `requests.get` or from `raise_for_status` is caught
by the first handler (print `✗ 下载失败`, return `False`); an `OSError` from
`os.makedirs` or from opening/writing the file is caught by the second
handler (print `✗ 保存失败`, return `False`); otherwise the body is written
and the function prints the success line and returns `True`. -/
def download_avatar (env : Env) (qq : PyVal) (save_path : Option String)
    (hd : Bool) (size : Int) : Except PyError Bool × List Effect :=
  match get_avatar_url qq hd size with
  | .error e => (.error e, [])
  | .ok url =>
    let sp := effectiveSavePath qq save_path hd
    match env.get url with
    | .netError =>
      (.ok false, [.get url, .printed "✗ 下载失败: <RequestException>"])
    | .response resp =>
      if raiseForStatusFails resp.status then
        (.ok false, [.get url, .printed "✗ 下载失败: <HTTPError>"])
      else
        let d := dirname (abspath env.cwd sp)
        if env.makedirs d then
          if env.fileWrite sp resp.content then
            (.ok true, [.get url, .makedirs d, .fileWrite sp resp.content,
              .printed ("✓ 头像已保存: " ++ sp ++ " (" ++ toString resp.content.length ++ " bytes)")])
          else
            (.ok false, [.get url, .makedirs d, .fileWrite sp resp.content,
              .printed "✗ 保存失败: <Exception>"])
        else
          (.ok false, [.get url, .makedirs d, .printed "✗ 保存失败: <Exception>"])

/-- `QQAvatar.check_avatar_exists` (src/main.py lines 84–101). The URL is
built outside the `try` with the default `size = 640`; the bare `except:`
around the HEAD request swallows every exception into `False`. -/
def check_avatar_exists (env : Env) (qq : PyVal) (hd : Bool) :
    Except PyError Bool × List Effect :=
  match get_avatar_url qq hd 640 with
  | .error e => (.error e, [])
  | .ok url =>
    match env.head url with
    | .netError => (.ok false, [.head url])
    | .response r => (.ok (r.status == 200), [.head url])

/-- One iteration of the `batch_download` loop (src/main.py lines 120–128):
print the progress header, build `save_path = os.path.join(output_dir,
f"{qq}{suffix}")`, call `download_avatar`. -/
def processItem (env : Env) (output_dir : String) (hd : Bool) (size : Int)
    (i total : Nat) (qq : PyVal) : Except PyError Bool × List Effect :=
  let header := "[" ++ toString i ++ "/" ++ toString total ++ "] 下载 QQ: " ++ pyStr qq ++ "..."
  let sp := pyJoin output_dir (pyStr qq ++ qualitySuffix hd)
  let r := download_avatar env qq (some sp) hd size
  (r.1, .printed header :: r.2)

/-- The `for` loop of `batch_download`, threading the 1-based `enumerate`
index; returns the number of iterations whose download returned `True`, or
propagates the first uncaught exception. -/
def batchItems (env : Env) (output_dir : String) (hd : Bool) (size : Int)
    (total : Nat) : Nat → List PyVal → Except PyError Nat × List Effect
  | _, [] => (.ok 0, [])
  | i, q :: rest =>
    let r := processItem env output_dir hd size i total q
    match r.1 with
    | .error e => (.error e, r.2)
    | .ok b =>
      let r2 := batchItems env output_dir hd size total (i + 1) rest
      match r2.1 with
      | .error e => (.error e, r.2 ++ r2.2)
      | .ok c => (.ok ((if b then 1 else 0) + c), r.2 ++ r2.2)

/-- `QQAvatar.batch_download` (src/main.py lines 103–130). Creates
`output_dir` when absent (this `os.makedirs` call is outside any `try`, so
its failure raises), prints the start line, runs the loop, prints the final
summary with the success count. Python returns `None`, hence `Unit`. -/
def batch_download (env : Env) (qq_list : List PyVal) (output_dir : String)
    (hd : Bool) (size : Int) : Except PyError Unit × List Effect :=
  let pre : Except PyError Unit × List Effect :=
    if env.pathExists output_dir then (.ok (), [])
    else if env.makedirs output_dir then (.ok (), [.makedirs output_dir])
    else (.error .osError, [.makedirs output_dir])
  match pre.1 with
  | .error e => (.error e, pre.2)
  | .ok _ =>
    let startMsg := "开始批量下载 " ++ toString qq_list.length ++ " 个头像..."
    let r := batchItems env output_dir hd size qq_list.length 1 qq_list
    match r.1 with
    | .error e => (.error e, pre.2 ++ .printed startMsg :: r.2)
    | .ok c =>
      (.ok (), pre.2 ++ .printed startMsg :: r.2 ++
        [.printed ("\n下载完成！成功: " ++ toString c ++ "/" ++ toString qq_list.length)])

/-! ## Observables over traces -/

/-- The URLs of the GET requests attempted in a trace, in order. -/
def getRequests (tr : List Effect) : List String :=
  tr.filterMap fun e =>
    match e with
    | .get u => some u
    | _ => none

/-- The paths of the file writes attempted in a trace, in order. -/
def writeAttempts (tr : List Effect) : List String :=
  tr.filterMap fun e =>
    match e with
    | .fileWrite p _ => some p
    | _ => none

/-- The URL `get_avatar_url` produces, defaulting to `""` on the error case;
under a build-success hypothesis this is the URL of the request. -/
def builtUrl (qq : PyVal) (hd : Bool) (size : Int) : String :=
  match get_avatar_url qq hd size with
  | .ok u => u
  | .error _ => ""

/-- Whether the `download_avatar` call that `batch_download` makes for one
identifier returns `True` (the per-item success that the final tally counts). -/
def itemSucceeded (env : Env) (output_dir : String) (hd : Bool) (size : Int)
    (qq : PyVal) : Bool :=
  match (download_avatar env qq (some (pyJoin output_dir (pyStr qq ++ qualitySuffix hd))) hd size).1 with
  | .ok true => true
  | _ => false

/-! ## Claims about the pure URL builder -/

/-- C1: for every identifier and every size, `get_avatar_url` clamps the size
to the quality-dependent maximum before embedding it in the URL: with
HighDefinition and size > 640 the URL carries 640, and with Standard and
size > 140 the URL carries 140 (whenever the identifier parses, so that a URL
is produced at all). -/
theorem C1_size_clamped (qq : PyVal) (s : Int) :
    (s > 640 → get_avatar_url qq true s = .ok (hd_url_template (pyStr qq) 640)) ∧
    (s > 140 → ∀ n, pyIntParse (pyStr qq) = some n →
      get_avatar_url qq false s =
        .ok (normal_url_template (if n % 2 = 0 then "1" else "2") (pyStr qq) 140)) := by
  constructor
  · intro hs
    simp [get_avatar_url, if_pos hs]
  · intro hs n hn
    simp [get_avatar_url, hn, if_pos hs]

/-- Witness for C1 at identifier "10001" and size 700. -/
theorem C1_size_clamped_witness :
    get_avatar_url (.str "10001") true 700 = .ok (hd_url_template "10001" 640) ∧
    get_avatar_url (.str "10001") false 700 = .ok (normal_url_template "2" "10001" 140) :=
  ⟨(C1_size_clamped (.str "10001") 700).1 (by decide),
   (C1_size_clamped (.str "10001") 700).2 (by decide) 10001 (by decide)⟩

/-- C2: for every integer-parseable identifier with Standard quality,
`get_avatar_url` selects server "1" when the parsed integer is even and "2"
when it is odd, producing `http://q{server}.qlogo.cn/g?b=qq&nk={id}&s={size}`
with the clamped size. -/
theorem C2_server_parity (qq : PyVal) (s : Int) (n : Int)
    (hn : pyIntParse (pyStr qq) = some n) :
    (n % 2 = 0 → get_avatar_url qq false s =
      .ok (normal_url_template "1" (pyStr qq) (if s > 140 then 140 else s))) ∧
    (n % 2 ≠ 0 → get_avatar_url qq false s =
      .ok (normal_url_template "2" (pyStr qq) (if s > 140 then 140 else s))) := by
  constructor
  · intro he
    simp [get_avatar_url, hn, he]
  · intro ho
    simp [get_avatar_url, hn, ho]

/-- Witness for C2 at the spec's scenarios: even identifier "10002" with size
100 gives server 1 unclamped, odd identifier "10001" with size 200 gives
server 2 with the size clamped to 140. -/
theorem C2_server_parity_witness :
    get_avatar_url (.str "10002") false 100 = .ok "http://q1.qlogo.cn/g?b=qq&nk=10002&s=100" ∧
    get_avatar_url (.str "10001") false 200 = .ok "http://q2.qlogo.cn/g?b=qq&nk=10001&s=140" :=
  ⟨(C2_server_parity (.str "10002") 100 10002 (by decide)).1 (by decide),
   (C2_server_parity (.str "10001") 200 10001 (by decide)).2 (by decide)⟩

/-- C3: `get_avatar_url` raises `ValueError` exactly when the identifier does
not parse as an integer and the quality is Standard; with HighDefinition it
succeeds on every identifier. -/
theorem C3_invalid_identifier (qq : PyVal) (hd : Bool) (s : Int) :
    (get_avatar_url qq hd s = .error .valueError ↔
      hd = false ∧ pyIntParse (pyStr qq) = none) ∧
    (hd = true → ∃ u, get_avatar_url qq hd s = .ok u) := by
  cases hd
  · cases hp : pyIntParse (pyStr qq) <;> simp [get_avatar_url, hp]
  · simp [get_avatar_url]

/-- Witness for C3: "abc" fails to parse so the Standard build raises, while
the HighDefinition build of the same identifier succeeds. -/
theorem C3_invalid_identifier_witness :
    get_avatar_url (.str "abc") false 640 = .error .valueError ∧
    ∃ u, get_avatar_url (.str "abc") true 640 = .ok u :=
  ⟨(C3_invalid_identifier (.str "abc") false 640).1.mpr ⟨rfl, by decide⟩,
   (C3_invalid_identifier (.str "abc") true 640).2 rfl⟩

/-- C8: the concrete scenario from the spec: building the HighDefinition URL
for "123456789" at size 640 yields exactly the stated string. -/
theorem C8_hd_scenario :
    get_avatar_url (.str "123456789") true 640 =
      .ok "http://q.qlogo.cn/headimg_dl?dst_uin=123456789&spec=640&img_type=jpg" := rfl

/-- C10: `get_avatar_url` applies no lower bound or positivity check to the
size: every size not exceeding the quality maximum, including zero and
negative values, is embedded unchanged in the URL. -/
theorem C10_no_lower_bound (qq : PyVal) (s : Int) :
    (s ≤ 640 → get_avatar_url qq true s = .ok (hd_url_template (pyStr qq) s)) ∧
    (∀ n, pyIntParse (pyStr qq) = some n → s ≤ 140 →
      get_avatar_url qq false s =
        .ok (normal_url_template (if n % 2 = 0 then "1" else "2") (pyStr qq) s)) := by
  constructor
  · intro hs
    simp [get_avatar_url, if_neg (by omega : ¬ s > 640)]
  · intro n hn hs
    simp [get_avatar_url, hn, if_neg (by omega : ¬ s > 140)]

/-- Witness for C10 at the negative size -5: both URLs embed "-5" unchanged. -/
theorem C10_no_lower_bound_witness :
    get_avatar_url (.str "10002") true (-5) =
      .ok "http://q.qlogo.cn/headimg_dl?dst_uin=10002&spec=-5&img_type=jpg" ∧
    get_avatar_url (.str "10002") false (-5) =
      .ok "http://q1.qlogo.cn/g?b=qq&nk=10002&s=-5" :=
  ⟨(C10_no_lower_bound (.str "10002") (-5)).1 (by decide),
   (C10_no_lower_bound (.str "10002") (-5)).2 10002 (by decide) (by decide)⟩

/-! ## Helper lemmas and concrete test environments -/

/-- When the quality is HighDefinition, or the identifier parses as an
integer, the URL build succeeds and returns `builtUrl`. -/
theorem get_avatar_url_ok (qq : PyVal) (hd : Bool) (size : Int)
    (h : hd = true ∨ (pyIntParse (pyStr qq)).isSome = true) :
    get_avatar_url qq hd size = .ok (builtUrl qq hd size) := by
  cases hd
  · rcases h with h | h
    · exact absurd h (by simp)
    · obtain ⟨n, hn⟩ := Option.isSome_iff_exists.mp h
      simp [get_avatar_url, builtUrl, hn]
  · simp [get_avatar_url, builtUrl]

/-- An environment in which every request answers 200 with body `[1, 2]` and
every filesystem call succeeds. -/
def envRespOk : Env :=
  { get := fun _ => .response ⟨200, [1, 2]⟩
    head := fun _ => .response ⟨200, []⟩
    makedirs := fun _ => true
    fileWrite := fun _ _ => true
    pathExists := fun _ => false
    cwd := "/work" }

/-- As `envRespOk`, but every request answers 404. -/
def envResp404 : Env :=
  { envRespOk with
    get := fun _ => .response ⟨404, []⟩
    head := fun _ => .response ⟨404, []⟩ }

/-- As `envRespOk`, but every request fails with a network error. -/
def envNet : Env :=
  { envRespOk with
    get := fun _ => .netError
    head := fun _ => .netError }

/-- As `envRespOk`, but every GET answers 304 (a non-2xx status that
`raise_for_status` does not treat as an error). -/
def envResp304 : Env :=
  { envRespOk with get := fun _ => .response ⟨304, [7]⟩ }

/-! ## Claims about `check_avatar_exists` -/

/-- C4: whenever the URL build succeeds, `check_avatar_exists` performs one
HEAD request and returns normally: `true` exactly when the response status is
200, `false` on every other status and on every network or timeout error —
no error reaches the caller. -/
theorem C4_check_exists (env : Env) (qq : PyVal) (hd : Bool)
    (h : hd = true ∨ (pyIntParse (pyStr qq)).isSome = true) :
    ∃ url, get_avatar_url qq hd 640 = .ok url ∧
      check_avatar_exists env qq hd =
        (.ok (match env.head url with
              | .response r => r.status == 200
              | .netError => false),
         [.head url]) := by
  refine ⟨builtUrl qq hd 640, get_avatar_url_ok qq hd 640 h, ?_⟩
  unfold check_avatar_exists
  rw [get_avatar_url_ok qq hd 640 h]
  cases hh : env.head (builtUrl qq hd 640) <;> simp [hh]

/-- Witness for C4: in the all-404 environment, probing "10001" in
HighDefinition quality. -/
theorem C4_check_exists_witness :
    ∃ url, get_avatar_url (.str "10001") true 640 = .ok url ∧
      check_avatar_exists envResp404 (.str "10001") true =
        (.ok (match envResp404.head url with
              | .response r => r.status == 200
              | .netError => false),
         [.head url]) :=
  C4_check_exists envResp404 (.str "10001") true (Or.inl rfl)

/-! ## Claims about `download_avatar` -/

/-- C5 counterexample: an HTTP 404 failure and a network failure hand the
caller the identical value `False`, so the caller receives no HttpError /
NetworkError distinction; and the non-2xx status 304 is not surfaced as an
error at all (`raise_for_status` only raises for 400–599), the download
reporting success instead. -/
theorem C5_counterexample :
    (download_avatar envResp404 (.str "5") none true 640).1 = .ok false ∧
    (download_avatar envNet (.str "5") none true 640).1 = .ok false ∧
    (download_avatar envResp304 (.str "5") none true 640).1 = .ok true :=
  ⟨rfl, rfl, rfl⟩

/-- C5 as amended: whenever the URL build succeeds, `download_avatar`
attempts exactly one GET (no automatic retry), stops at the first failing
step (after a network error no write is attempted), and reports every
failure to its immediate caller as the single boolean `False` — returning
`True` exactly when the GET yields a status outside 400–599 and the
directory creation and file write both succeed. -/
theorem C5_first_error_no_retry (env : Env) (qq : PyVal) (sp : Option String)
    (hd : Bool) (size : Int)
    (h : hd = true ∨ (pyIntParse (pyStr qq)).isSome = true) :
    ∃ url, get_avatar_url qq hd size = .ok url ∧
      getRequests (download_avatar env qq sp hd size).2 = [url] ∧
      ((download_avatar env qq sp hd size).1 = .ok true ∨
        (download_avatar env qq sp hd size).1 = .ok false) ∧
      ((download_avatar env qq sp hd size).1 = .ok true ↔
        (∃ resp, env.get url = .response resp ∧
          raiseForStatusFails resp.status = false ∧
          env.makedirs (dirname (abspath env.cwd (effectiveSavePath qq sp hd))) = true ∧
          env.fileWrite (effectiveSavePath qq sp hd) resp.content = true)) ∧
      (env.get url = .netError → writeAttempts (download_avatar env qq sp hd size).2 = []) := by
  have hb := get_avatar_url_ok qq hd size h
  refine ⟨builtUrl qq hd size, hb, ?_⟩
  cases hg : env.get (builtUrl qq hd size) with
  | netError =>
    simp [download_avatar, hb, hg, getRequests, writeAttempts]
  | response resp =>
    cases hrs : raiseForStatusFails resp.status with
    | true =>
      simp [download_avatar, hb, hg, hrs, getRequests, writeAttempts]
    | false =>
      cases hm : env.makedirs (dirname (abspath env.cwd (effectiveSavePath qq sp hd))) with
      | false =>
        simp [download_avatar, hb, hg, hrs, hm, getRequests, writeAttempts]
      | true =>
        cases hw : env.fileWrite (effectiveSavePath qq sp hd) resp.content with
        | false =>
          simp [download_avatar, hb, hg, hrs, hm, hw, getRequests, writeAttempts]
        | true =>
          simp [download_avatar, hb, hg, hrs, hm, hw, getRequests, writeAttempts]

/-- Witness for C5 as amended: the 404 environment downloading "5". -/
theorem C5_first_error_no_retry_witness :
    ∃ url, get_avatar_url (.str "5") true 640 = .ok url ∧
      getRequests (download_avatar envResp404 (.str "5") none true 640).2 = [url] ∧
      ((download_avatar envResp404 (.str "5") none true 640).1 = .ok true ∨
        (download_avatar envResp404 (.str "5") none true 640).1 = .ok false) ∧
      ((download_avatar envResp404 (.str "5") none true 640).1 = .ok true ↔
        (∃ resp, envResp404.get url = .response resp ∧
          raiseForStatusFails resp.status = false ∧
          envResp404.makedirs (dirname (abspath envResp404.cwd (effectiveSavePath (.str "5") none true))) = true ∧
          envResp404.fileWrite (effectiveSavePath (.str "5") none true) resp.content = true)) ∧
      (envResp404.get url = .netError →
        writeAttempts (download_avatar envResp404 (.str "5") none true 640).2 = []) :=
  C5_first_error_no_retry envResp404 (.str "5") none true 640 (Or.inl rfl)

/-- C7 counterexample: with no destination path given, the file-write attempt
for identifier "10001" in HighDefinition quality targets `qq_10001_hd.jpg`,
not the `avatar_10001_hd.jpg` the claim states. -/
theorem C7_counterexample :
    writeAttempts (download_avatar envRespOk (.str "10001") none true 640).2 =
      ["qq_10001_hd.jpg"] ∧
    "qq_10001_hd.jpg" ≠ "avatar_10001_hd.jpg" :=
  ⟨rfl, by decide⟩

/-- C7 as amended: when no destination path is given and the GET returns a
non-error status and directory creation succeeds, `download_avatar` writes to
the default path `qq_{identifier}{suffix}` in the current working directory,
with suffix `_hd.jpg` for HighDefinition and `.png` for Standard. -/
theorem C7_default_path (env : Env) (qq : PyVal) (hd : Bool) (size : Int)
    (resp : HttpResponse)
    (h : hd = true ∨ (pyIntParse (pyStr qq)).isSome = true)
    (hg : env.get (builtUrl qq hd size) = .response resp)
    (hs : raiseForStatusFails resp.status = false)
    (hm : ∀ d, env.makedirs d = true) :
    writeAttempts (download_avatar env qq none hd size).2 =
      ["qq_" ++ pyStr qq ++ (if hd = true then "_hd.jpg" else ".png")] := by
  have hb := get_avatar_url_ok qq hd size h
  cases hw : env.fileWrite ("qq_" ++ pyStr qq ++ (if hd = true then "_hd.jpg" else ".png")) resp.content <;>
    simp [download_avatar, hb, hg, hs, hm, hw, writeAttempts, effectiveSavePath, qualitySuffix]

/-- Witness for C7 as amended: Standard-quality download of "10002" with all
filesystem calls succeeding writes to `qq_10002.png`. -/
theorem C7_default_path_witness :
    writeAttempts (download_avatar envRespOk (.str "10002") none false 100).2 =
      ["qq_" ++ pyStr (.str "10002") ++ (if false = true then "_hd.jpg" else ".png")] :=
  C7_default_path envRespOk (.str "10002") false 100 ⟨200, [1, 2]⟩
    (Or.inr (by decide)) rfl (by decide) (fun _ => rfl)

/-! ## Claims about `batch_download` -/

/-- A Standard-quality download of an identifier that does not parse raises
`ValueError` before any effect is attempted. -/
theorem download_parse_error (env : Env) (qq : PyVal) (sp : Option String) (size : Int)
    (hb : pyIntParse (pyStr qq) = none) :
    download_avatar env qq sp false size = (.error .valueError, []) := by
  simp [download_avatar, get_avatar_url, hb]

/-- `download_avatar` either raises the `ValueError` from the URL build or
returns a boolean; no other exception escapes it. -/
theorem download_fst_shape (env : Env) (qq : PyVal) (sp : Option String)
    (hd : Bool) (size : Int) :
    (download_avatar env qq sp hd size).1 = .error .valueError ∨
      ∃ b, (download_avatar env qq sp hd size).1 = .ok b := by
  rcases hu : get_avatar_url qq hd size with e | u
  · left
    have he : e = PyError.valueError := by
      cases hd
      · cases hp : pyIntParse (pyStr qq) <;> simp [get_avatar_url, hp] at hu
        exact hu.symm
      · simp [get_avatar_url] at hu
    subst he
    simp [download_avatar, hu]
  · right
    cases hg : env.get u with
    | netError => exact ⟨false, by simp [download_avatar, hu, hg]⟩
    | response resp =>
      by_cases hrs : raiseForStatusFails resp.status = true
      · exact ⟨false, by simp [download_avatar, hu, hg, hrs]⟩
      · by_cases hm : env.makedirs (dirname (abspath env.cwd (effectiveSavePath qq sp hd))) = true
        · by_cases hw : env.fileWrite (effectiveSavePath qq sp hd) resp.content = true
          · exact ⟨true, by simp [download_avatar, hu, hg, hrs, hm, hw]⟩
          · exact ⟨false, by simp [download_avatar, hu, hg, hrs, hm, hw]⟩
        · exact ⟨false, by simp [download_avatar, hu, hg, hrs, hm]⟩

/-- When the URL build succeeds, `download_avatar` returns a boolean and its
trace carries exactly one GET, for the built URL. -/
theorem download_ok_run (env : Env) (qq : PyVal) (sp : Option String)
    (hd : Bool) (size : Int)
    (h : hd = true ∨ (pyIntParse (pyStr qq)).isSome = true) :
    ∃ b, (download_avatar env qq sp hd size).1 = .ok b ∧
      getRequests (download_avatar env qq sp hd size).2 = [builtUrl qq hd size] := by
  have hb := get_avatar_url_ok qq hd size h
  cases hg : env.get (builtUrl qq hd size) with
  | netError =>
    refine ⟨false, ?_, ?_⟩ <;> simp [download_avatar, hb, hg, getRequests]
  | response resp =>
    by_cases hrs : raiseForStatusFails resp.status = true
    · refine ⟨false, ?_, ?_⟩ <;> simp [download_avatar, hb, hg, hrs, getRequests]
    · by_cases hm : env.makedirs (dirname (abspath env.cwd (effectiveSavePath qq sp hd))) = true
      · by_cases hw : env.fileWrite (effectiveSavePath qq sp hd) resp.content = true
        · refine ⟨true, ?_, ?_⟩ <;> simp [download_avatar, hb, hg, hrs, hm, hw, getRequests]
        · refine ⟨false, ?_, ?_⟩ <;> simp [download_avatar, hb, hg, hrs, hm, hw, getRequests]
      · refine ⟨false, ?_, ?_⟩ <;> simp [download_avatar, hb, hg, hrs, hm, getRequests]

/-- In a Standard-quality batch, the loop stops at the first identifier that
does not parse: the result does not depend on the identifiers after it (given
equally many of them, which fixes the printed totals), and the loop
propagates the `ValueError`. -/
theorem batchItems_stops (env : Env) (outd : String) (size : Int) (bad : PyVal)
    (hbad : pyIntParse (pyStr bad) = none) (l1 l2 l2' : List PyVal) :
    ∀ i total : Nat,
      batchItems env outd false size total i (l1 ++ bad :: l2) =
        batchItems env outd false size total i (l1 ++ bad :: l2') ∧
      (batchItems env outd false size total i (l1 ++ bad :: l2)).1 = .error .valueError := by
  induction l1 with
  | nil =>
    intro i total
    have hdl := download_parse_error env bad
      (some (pyJoin outd (pyStr bad ++ qualitySuffix false))) size hbad
    constructor <;> simp [batchItems, processItem, hdl]
  | cons q l1 ih =>
    intro i total
    simp only [List.cons_append, batchItems, processItem]
    rcases download_fst_shape env q (some (pyJoin outd (pyStr q ++ qualitySuffix false)))
        false size with hq | ⟨b, hq⟩
    · constructor <;> simp [hq]
    · refine ⟨?_, ?_⟩
      · simp [hq, (ih (i + 1) total).1]
      · simp [hq, (ih (i + 1) total).2]

/-- When the loop body propagates a `ValueError`, so does `batch_download`
itself, provided the output-directory setup did not already fail. -/
theorem batch_error_prop (env : Env) (l : List PyVal) (outd : String)
    (hd : Bool) (size : Int)
    (hdir : env.pathExists outd = true ∨ env.makedirs outd = true)
    (he : (batchItems env outd hd size l.length 1 l).1 = .error .valueError) :
    (batch_download env l outd hd size).1 = .error .valueError := by
  by_cases hp : env.pathExists outd = true
  · simp [batch_download, hp, he]
  · have hmk : env.makedirs outd = true := hdir.resolve_left hp
    simp [batch_download, hp, hmk, he]

/-- C9: the URL is built before the `try` in `download_avatar`, so a
Standard-quality call on an identifier that does not parse raises the
`ValueError` to the caller with no effect attempted, instead of returning a
failure boolean; consequently `batch_download` aborts on such an identifier:
its outcome is independent of the identifiers that follow it, and it
propagates the `ValueError` (when the output directory can be set up at all). -/
theorem C9_parse_error_aborts (env : Env) (sp : Option String) (size : Int)
    (bad : PyVal) (l1 l2 l2' : List PyVal) (outd : String)
    (hbad : pyIntParse (pyStr bad) = none)
    (hlen : l2.length = l2'.length)
    (hdir : env.pathExists outd = true ∨ env.makedirs outd = true) :
    download_avatar env bad sp false size = (.error .valueError, []) ∧
    batch_download env (l1 ++ bad :: l2) outd false size =
      batch_download env (l1 ++ bad :: l2') outd false size ∧
    (batch_download env (l1 ++ bad :: l2) outd false size).1 = .error .valueError := by
  have hlen2 : (l1 ++ bad :: l2).length = (l1 ++ bad :: l2').length := by simp [hlen]
  obtain ⟨keq, kerr⟩ :=
    batchItems_stops env outd size bad hbad l1 l2 l2' 1 (l1 ++ bad :: l2).length
  refine ⟨download_parse_error env bad sp size hbad, ?_, ?_⟩
  · unfold batch_download
    rw [← hlen2, keq]
  · exact batch_error_prop env (l1 ++ bad :: l2) outd false size hdir kerr

/-- Witness for C9: the batch ["10001", "xx", "10002"] behaves exactly as
["10001", "xx", "77777"] — the identifier after the bad one is never
consulted — and both runs raise. -/
theorem C9_parse_error_aborts_witness :
    download_avatar envRespOk (.str "xx") none false 640 = (.error .valueError, []) ∧
    batch_download envRespOk [.str "10001", .str "xx", .str "10002"] "avatars" false 640 =
      batch_download envRespOk [.str "10001", .str "xx", .str "77777"] "avatars" false 640 ∧
    (batch_download envRespOk [.str "10001", .str "xx", .str "10002"] "avatars" false 640).1 =
      .error .valueError :=
  C9_parse_error_aborts envRespOk none 640 (.str "xx")
    [.str "10001"] [.str "10002"] [.str "77777"] "avatars"
    (by decide) rfl (Or.inr rfl)

/-- A trace whose last element is known has that element as its `getLast?`. -/
theorem getLast?_cons_append_singleton (m : Effect) (tr : List Effect) (s : Effect) :
    (m :: (tr ++ [s])).getLast? = some s := by
  rw [← List.cons_append, List.getLast?_append_cons]
  rfl

/-- As the previous lemma, one prepended element deeper. -/
theorem getLast?_cons_cons_append_singleton (x m : Effect) (tr : List Effect) (s : Effect) :
    (x :: m :: (tr ++ [s])).getLast? = some s := by
  rw [← List.cons_append, ← List.cons_append, List.getLast?_append_cons]
  rfl

/-- `getRequests` distributes over trace concatenation. -/
theorem getRequests_append (a b : List Effect) :
    getRequests (a ++ b) = getRequests a ++ getRequests b :=
  List.filterMap_append a b _

/-- A leading print contributes no GET request. -/
theorem getRequests_cons_printed (s : String) (tr : List Effect) :
    getRequests (.printed s :: tr) = getRequests tr := rfl

/-- A leading directory creation contributes no GET request. -/
theorem getRequests_cons_makedirs (p : String) (tr : List Effect) :
    getRequests (.makedirs p :: tr) = getRequests tr := rfl

/-- The empty trace has no GET requests. -/
theorem getRequests_nil : getRequests [] = [] := rfl

/-- The batch loop, when every identifier's URL builds, finishes normally
with the count of successful items, performing one GET per identifier in
input order whatever the environment answers. -/
theorem batchItems_all (env : Env) (outd : String) (hd : Bool) (size : Int)
    (total : Nat) (l : List PyVal) :
    ∀ i : Nat, (∀ q ∈ l, hd = true ∨ (pyIntParse (pyStr q)).isSome = true) →
      (batchItems env outd hd size total i l).1 =
        .ok (l.countP (fun q => itemSucceeded env outd hd size q)) ∧
      getRequests (batchItems env outd hd size total i l).2 =
        l.map (fun q => builtUrl q hd size) := by
  induction l with
  | nil =>
    intro i h
    constructor <;> simp [batchItems, getRequests]
  | cons q rest ih =>
    intro i h
    have hq : hd = true ∨ (pyIntParse (pyStr q)).isSome = true := h q (by simp)
    have hrest : ∀ p ∈ rest, hd = true ∨ (pyIntParse (pyStr p)).isSome = true :=
      fun p hp => h p (by simp [hp])
    obtain ⟨ih1, ih2⟩ := ih (i + 1) hrest
    obtain ⟨b, hb1, hb2⟩ :=
      download_ok_run env q (some (pyJoin outd (pyStr q ++ qualitySuffix hd))) hd size hq
    have hbit : itemSucceeded env outd hd size q = b := by
      cases b <;> simp [itemSucceeded, hb1]
    cases b <;>
      constructor <;>
        simp [batchItems, processItem, hb1, hb2, ih1, ih2, hbit,
          getRequests_append, getRequests_cons_printed, List.countP_cons, Nat.add_comm]

/-- C6: whenever every identifier's URL builds (in particular always for
HighDefinition quality) and the output directory can be set up,
`batch_download` attempts a GET for every identifier in input order — an
individual fetch failure never aborts the batch — finishes normally, and its
final progress line reports the count of successes out of the total
attempted. -/
theorem C6_batch_best_effort (env : Env) (qq_list : List PyVal) (outd : String)
    (hd : Bool) (size : Int)
    (hq : ∀ q ∈ qq_list, hd = true ∨ (pyIntParse (pyStr q)).isSome = true)
    (hdir : env.pathExists outd = true ∨ env.makedirs outd = true) :
    (batch_download env qq_list outd hd size).1 = .ok () ∧
    getRequests (batch_download env qq_list outd hd size).2 =
      qq_list.map (fun q => builtUrl q hd size) ∧
    (batch_download env qq_list outd hd size).2.getLast? =
      some (.printed ("\n下载完成！成功: " ++
        toString (qq_list.countP (fun q => itemSucceeded env outd hd size q)) ++ "/" ++
        toString qq_list.length)) := by
  obtain ⟨h1, h2⟩ := batchItems_all env outd hd size qq_list.length qq_list 1 hq
  by_cases hp : env.pathExists outd = true
  · refine ⟨?_, ?_, ?_⟩ <;>
      simp [batch_download, hp, h1, h2, getRequests_append, getRequests_cons_printed,
        getRequests_cons_makedirs, getRequests_nil, getLast?_cons_append_singleton,
        getLast?_cons_cons_append_singleton]
  · have hmk : env.makedirs outd = true := hdir.resolve_left hp
    refine ⟨?_, ?_, ?_⟩ <;>
      simp [batch_download, hp, hmk, h1, h2, getRequests_append, getRequests_cons_printed,
        getRequests_cons_makedirs, getRequests_nil, getLast?_cons_append_singleton,
        getLast?_cons_cons_append_singleton]

/-- As `envRespOk`, but the GET for identifier "10002"'s HighDefinition URL
fails with a network error, so the middle item of a three-item batch fails. -/
def envMiddleFail : Env :=
  { envRespOk with
    get := fun u =>
      if u = builtUrl (.str "10002") true 640 then .netError
      else .response ⟨200, [1, 2]⟩ }

/-- Witness for C6, mirroring the spec's scenario: in a batch of three where
the middle fetch fails with a simulated network error, all three identifiers
are attempted in order, the batch finishes normally, and the summary reports
2 successes out of 3. -/
theorem C6_batch_best_effort_witness :
    ((batch_download envMiddleFail [.str "10001", .str "10002", .str "10003"] "avatars" true 640).1 = .ok () ∧
      getRequests (batch_download envMiddleFail [.str "10001", .str "10002", .str "10003"] "avatars" true 640).2 =
        List.map (fun q => builtUrl q true 640) [.str "10001", .str "10002", .str "10003"] ∧
      (batch_download envMiddleFail [.str "10001", .str "10002", .str "10003"] "avatars" true 640).2.getLast? =
        some (.printed ("\n下载完成！成功: " ++
          toString (List.countP (fun q => itemSucceeded envMiddleFail "avatars" true 640 q)
            [.str "10001", .str "10002", .str "10003"]) ++ "/" ++
          toString (List.length [PyVal.str "10001", .str "10002", .str "10003"])))) ∧
    List.countP (fun q => itemSucceeded envMiddleFail "avatars" true 640 q)
      [.str "10001", .str "10002", .str "10003"] = 2 :=
  ⟨C6_batch_best_effort envMiddleFail [.str "10001", .str "10002", .str "10003"] "avatars" true 640
      (fun q _ => Or.inl rfl) (Or.inr rfl),
    by decide⟩

end QIMG
